import Mathlib

/-!
Shallow embedding of the ESG dashboard (src/app.py, src/fetch_data.py).

HTML documents are modelled as a tree of tags; BeautifulSoup's `find` and
`find_all` become first/all matches over the descendant list in document
(pre)order.  Python `float(...)` on scraped text is modelled by a decimal
numeral parser returning `Option Rat` (Python raises `ValueError` exactly
where the parser returns `none` on the texts relevant here); a raised
exception is an `Except.error`.  Python dict assignment is modelled by
in-place association-list update.
-/

/-- An HTML element: tag name, attributes, CSS classes, the element's text
content (modelling BeautifulSoup's `.text` as a stored field), and child
elements. -/
inductive Tag : Type where
  | mk (name : String) (attrs : List (String × String)) (classes : List String)
      (text : String) (children : List Tag)

def Tag.name : Tag → String
  | .mk n _ _ _ _ => n

def Tag.attrs : Tag → List (String × String)
  | .mk _ a _ _ _ => a

def Tag.classes : Tag → List String
  | .mk _ _ c _ _ => c

def Tag.text : Tag → String
  | .mk _ _ _ t _ => t

def Tag.children : Tag → List Tag
  | .mk _ _ _ _ cs => cs

mutual

/-- All proper descendants of a tag in document (pre)order, the order in
which BeautifulSoup's `find` / `find_all` visit them. -/
def Tag.descendants : Tag → List Tag
  | .mk _ _ _ _ cs => Tag.descendantsOf cs

def Tag.descendantsOf : List Tag → List Tag
  | [] => []
  | c :: cs => c :: (Tag.descendants c ++ Tag.descendantsOf cs)

end

/-- `tag.find(...)`: the first descendant satisfying the predicate. -/
def Tag.find (p : Tag → Bool) (t : Tag) : Option Tag :=
  t.descendants.find? p

/-- `tag.find_all(...)`: all descendants satisfying the predicate. -/
def Tag.findAll (p : Tag → Bool) (t : Tag) : List Tag :=
  t.descendants.filter p

/-- Attribute filter `{key: value}` of BeautifulSoup `find`. -/
def attrIs (t : Tag) (k v : String) : Bool :=
  t.attrs.lookup k == some v

/-- BeautifulSoup `class_=s` matching on the multi-valued class attribute:
`s` is one of the element's classes, or `s` is the exact full class string. -/
def classMatch (t : Tag) (s : String) : Bool :=
  t.classes.contains s || s == " ".intercalate t.classes

/-- `soup.find("section", {"data-testid": testid})` match predicate. -/
def isSection (testid : String) (t : Tag) : Bool :=
  t.name == "section" && attrIs t "data-testid" testid

/-- Match on tag name only, as in `find_all("tr")`. -/
def isNamed (n : String) (t : Tag) : Bool :=
  t.name == n

/-- Match on tag name and class, as in `find("span", class_=...)`. -/
def isNamedClass (n cls : String) (t : Tag) : Bool :=
  t.name == n && classMatch t cls

/-- Python `str.strip()`: remove leading and trailing whitespace. -/
def pyStrip (s : String) : String :=
  ⟨((s.data.dropWhile Char.isWhitespace).reverse.dropWhile Char.isWhitespace).reverse⟩

/-- Python `str.upper()` (on the ASCII ticker alphabet): uppercase every
character. -/
def pyUpper (s : String) : String :=
  ⟨s.data.map Char.toUpper⟩

def digitVal? (c : Char) : Option Nat :=
  if c.isDigit then some (c.toNat - 48) else none

/-- Value of a nonempty all-digit character list; `none` otherwise. -/
def parseNat? : List Char → Option Nat
  | [] => none
  | cs => cs.foldl
      (fun acc c =>
        match acc, digitVal? c with
        | some n, some d => some (n * 10 + d)
        | _, _ => none)
      (some 0)

/-- Split a character list at every occurrence of `sep`. -/
def splitOnChar (sep : Char) : List Char → List (List Char)
  | [] => [[]]
  | c :: cs =>
    match splitOnChar sep cs with
    | [] => if c == sep then [[], []] else [[c]]
    | g :: gs => if c == sep then [] :: g :: gs else (c :: g) :: gs

/-- Models Python `float(...)` on the plain decimal numerals occurring in
scraped score text ("3", "2.1", "25.5", ...): `some` of the rational value
on such a numeral, `none` (Python: `ValueError`) on any other text. -/
def parseNum (s : String) : Option Rat :=
  match splitOnChar '.' s.data with
  | [w] => (parseNat? w).map (fun n => (n : Rat))
  | [w, f] =>
    match parseNat? w, parseNat? f with
    | some n, some m => some ((n : Rat) + (m : Rat) / ((10 : Rat) ^ f.length))
    | _, _ => none
  | _ => none

/-- Python dict assignment `d[k] = v`: replace the value of an existing key
in place, otherwise append the new entry at the end. -/
def dictSet (d : List (String × String)) (k v : String) : List (String × String) :=
  match d with
  | [] => [(k, v)]
  | p :: ps => if p.1 = k then (k, v) :: ps else p :: dictSet ps k v

/-- Python dict lookup `d[k]`: the value at the (unique) entry for `k`. -/
def dictGet (d : List (String × String)) (k : String) : Option String :=
  match d with
  | [] => none
  | p :: ps => if p.1 = k then some p.2 else dictGet ps k

/-- Errors a `scrape_esg_scores` call can raise: a network failure inside
`requests.get`, or a `ValueError` from `float(...)`. -/
inductive ScrapeError : Type where
  | network
  | valueError
deriving DecidableEq

/-- An HTTP response: `status_code`, and `text` already parsed by
BeautifulSoup into the document tree. -/
structure HttpResponse : Type where
  status_code : Nat
  text : Tag

/-- The record returned by `scrape_esg_scores` (fields in the order of the
source's dict literal). -/
structure ScrapeResult : Type where
  total : Option Rat
  total_level : Option String
  environmental : Option Rat
  social : Option Rat
  governance : Option Rat
  involvement_areas : List (String × String)
  controversy_score : Option Rat
  controversy_category_average : Option Rat
deriving DecidableEq

/-- The inner `get_score(testid)` of `scrape_esg_scores`: absent section
gives `(None, None)`; otherwise `float(score_tag.text.strip())` when the
`h4` exists (raising on parse failure) and the level span's stripped text
when that span exists. -/
def get_score (soup : Tag) (testid : String) : Except ScrapeError (Option Rat × Option String) :=
  match Tag.find (isSection testid) soup with
  | none => .ok (none, none)
  | some sec =>
    let score_tag := Tag.find (isNamed "h4") sec
    let level_tag := Tag.find (isNamedClass "span" "perf yf-y3c2sq") sec
    let level := level_tag.map (fun l => pyStrip l.text)
    match score_tag with
    | none => .ok (none, level)
    | some st =>
      match parseNum (pyStrip st.text) with
      | some v => .ok (some v, level)
      | none => .error .valueError

/-- One step of the involvement-areas loop body: a row with exactly two
`td` cells contributes `involvement_data[product] = involvement`; any
other row is skipped. -/
def rowStep (d : List (String × String)) (row : Tag) : List (String × String) :=
  match Tag.findAll (isNamed "td") row with
  | [c0, c1] => dictSet d (pyStrip c0.text) (pyStrip c1.text)
  | _ => d

/-- The involvement-areas loop over `table.find_all("tr")[1:]`, starting
from the empty dict. -/
def involvementFromTable (table : Tag) : List (String × String) :=
  ((Tag.findAll (isNamed "tr") table).drop 1).foldl rowStep []

/-- The product-involvement mapping of a document: empty unless the
`involvement-areas` section and a table inside it exist. -/
def involvement_areas_of (soup : Tag) : List (String × String) :=
  match Tag.find (isSection "involvement-areas") soup with
  | none => []
  | some sec =>
    match Tag.find (isNamed "table") sec with
    | none => []
    | some table => involvementFromTable table

/-- The ESG-controversy extraction: controversy score from the first span
of the `val` div when that div has at least two spans, category average
from the `peer-score` span of the tooltip div; each `float` failure is
absorbed (`try`/`except: pass`) into `none` for that one field. -/
def controversy_pair (soup : Tag) : Option Rat × Option Rat :=
  match Tag.find (isSection "esg-controversy") soup with
  | none => (none, none)
  | some sec =>
    let c_score :=
      match Tag.find (isNamedClass "div" "val yf-ye6fz0") sec with
      | none => none
      | some val_div =>
        match Tag.findAll (isNamed "span") val_div with
        | s0 :: _ :: _ => parseNum (pyStrip s0.text)
        | _ => none
    let c_avg :=
      match Tag.find (isNamedClass "div" "tooltip al-top yf-15g2hux") sec with
      | none => none
      | some tooltip_div =>
        match Tag.find (isNamedClass "span" "peer-score yf-ye6fz0") tooltip_div with
        | none => none
        | some peer_span => parseNum (pyStrip peer_span.text)
    (c_score, c_avg)

/-- `scrape_esg_scores(ticker)` with the network passed explicitly:
`net ticker` is the outcome of `requests.get` on the ticker's URL (an
`error` models a raised network exception, which propagates).  A non-200
status returns `none` ("no data"); otherwise the four score sections are
read in source order (a `ValueError` from any of them propagates) and the
full eight-field record is returned. -/
def scrape_esg_scores (net : String → Except ScrapeError HttpResponse) (ticker : String) :
    Except ScrapeError (Option ScrapeResult) :=
  match net ticker with
  | .error e => .error e
  | .ok resp =>
    if resp.status_code ≠ 200 then .ok none
    else
      let soup := resp.text
      match get_score soup "TOTAL_ESG_SCORE" with
      | .error e => .error e
      | .ok (total_score, total_level) =>
        match get_score soup "ENVIRONMENTAL_SCORE" with
        | .error e => .error e
        | .ok (env_score, _) =>
          match get_score soup "SOCIAL_SCORE" with
          | .error e => .error e
          | .ok (soc_score, _) =>
            match get_score soup "GOVERNANCE_SCORE" with
            | .error e => .error e
            | .ok (gov_score, _) =>
              let involvement_data := involvement_areas_of soup
              let cp := controversy_pair soup
              .ok (some ⟨total_score, total_level, env_score, soc_score, gov_score,
                         involvement_data, cp.1, cp.2⟩)

/-- One row of the aggregate table built by `fetch_data` (columns in the
order of the source's row dict; the total score is non-null by the guard
under which the row is appended). -/
structure Row : Type where
  ticker : String
  total_score : Rat
  total_level : Option String
  environmental : Option Rat
  social : Option Rat
  governance : Option Rat
  controversy_score : Option Rat
  controversy_category_average : Option Rat
  involvement_areas : List (String × String)
deriving DecidableEq

def mkRow (t : String) (d : ScrapeResult) (tot : Rat) : Row :=
  ⟨t, tot, d.total_level, d.environmental, d.social, d.governance,
   d.controversy_score, d.controversy_category_average, d.involvement_areas⟩

/-- The `for t in tickers` loop of `fetch_data`, with the accumulated
`results` list and `valid_count`; a row is appended (and the count bumped)
exactly when the scrape result is non-null with a non-null total score.
An exception from `scrape_esg_scores` propagates. -/
def fetch_data_go (scrape : String → Except ScrapeError (Option ScrapeResult)) :
    List String → List Row → Nat → Except ScrapeError (List Row × Nat)
  | [], results, valid_count => .ok (results, valid_count)
  | t :: ts, results, valid_count =>
    match scrape t with
    | .error e => .error e
    | .ok none => fetch_data_go scrape ts results valid_count
    | .ok (some d) =>
      match d.total with
      | none => fetch_data_go scrape ts results valid_count
      | some tot =>
        fetch_data_go scrape ts (results ++ [mkRow t d tot]) (valid_count + 1)

/-- `fetch_data(tickers)` of src/app.py, abstracted over the scrape
function: the aggregate table (as its list of rows) and `valid_count`. -/
def fetch_data (scrape : String → Except ScrapeError (Option ScrapeResult))
    (tickers : List String) : Except ScrapeError (List Row × Nat) :=
  fetch_data_go scrape tickers [] 0

/-- The row a ticker contributes to the aggregate table: `some` exactly
when its scrape result is non-null with a non-null total score. -/
def rowOf (scrape : String → Except ScrapeError (Option ScrapeResult)) (t : String) :
    Option Row :=
  match scrape t with
  | .ok (some d) => d.total.map (fun tot => mkRow t d tot)
  | _ => none

/-- `pandas.unique` on a list: keep the first occurrence of each value,
in order. -/
def uniqueFirst : List String → List String
  | [] => []
  | x :: xs => x :: (uniqueFirst xs).filter (fun y => y != x)

/-- The `Ticker` column pipeline of src/app.py:
`dropna().astype(str).str.upper().unique().tolist()`; the column is a list
of optional strings (`none` = NaN). -/
def tickersFromCsv (col : List (Option String)) : List String :=
  uniqueFirst ((col.filterMap id).map pyUpper)

/-- The ticker list handed to `fetch_data`: from the uploaded CSV's
`Ticker` column when one parses (`csv = some col`), then overridden by
`[single_ticker.upper()]` when the single-ticker text entry is nonempty. -/
def tickersInput (csv : Option (List (Option String))) (single : String) : List String :=
  let fromCsv :=
    match csv with
    | some col => tickersFromCsv col
    | none => []
  if single ≠ "" then [pyUpper single] else fromCsv

/-- The raw source values the ticker list is derived from: the single text
entry when nonempty, otherwise the CSV column's non-null values. -/
def sourceVals (csv : Option (List (Option String))) (single : String) : List String :=
  if single ≠ "" then [single]
  else
    match csv with
    | some col => col.filterMap id
    | none => []

def cacheLookup (c : List (List String × (List Row × Nat))) (ts : List String) :
    Option (List Row × Nat) :=
  match c with
  | [] => none
  | p :: ps => if p.1 = ts then some p.2 else cacheLookup ps ts

/-- Modelled from the spec: the `st.cache_data` decorator applied to
`fetch_data` is not itself part of src/; per the spec, results are
memoized for the lifetime of one input batch, keyed by the exact input
sequence of tickers.  `compute` is the undecorated body; the third
component counts the underlying per-ticker extractions performed by the
call (one per ticker on a cache miss, zero on a hit). -/
def cached_call (compute : List String → List Row × Nat)
    (cache : List (List String × (List Row × Nat))) (ts : List String) :
    (List Row × Nat) × List (List String × (List Row × Nat)) × Nat :=
  match cacheLookup cache ts with
  | some r => (r, cache, 0)
  | none => (compute ts, (ts, compute ts) :: cache, ts.length)

/-! Concrete documents and network stubs used to instantiate the theorems
below on explicit inputs. -/

def docEmpty : Tag := Tag.mk "html" [] [] "" []

def h4C2 : Tag := Tag.mk "h4" [] [] "N/A" []

def secC2 : Tag := Tag.mk "section" [("data-testid", "TOTAL_ESG_SCORE")] [] "" [h4C2]

def docC2 : Tag := Tag.mk "html" [] [] "" [secC2]

def netC2 : String → Except ScrapeError HttpResponse := fun _ => .ok ⟨200, docC2⟩

def netFail : String → Except ScrapeError HttpResponse := fun _ => .error .network

def net404 : String → Except ScrapeError HttpResponse := fun _ => .ok ⟨404, docEmpty⟩

def netOk200 : String → Except ScrapeError HttpResponse := fun _ => .ok ⟨200, docEmpty⟩

def h4C10 : Tag := Tag.mk "h4" [] [] "??" []

def secC10 : Tag := Tag.mk "section" [("data-testid", "ENVIRONMENTAL_SCORE")] [] "" [h4C10]

def docC10 : Tag := Tag.mk "html" [] [] "" [secC10]

def netC10 : String → Except ScrapeError HttpResponse := fun _ => .ok ⟨200, docC10⟩

def spanC7a : Tag := Tag.mk "span" [] [] "3" []

def spanC7b : Tag := Tag.mk "span" [] [] "5" []

def valDivC7 : Tag := Tag.mk "div" [] ["val", "yf-ye6fz0"] "" [spanC7a, spanC7b]

def peerC7 : Tag := Tag.mk "span" [] ["peer-score", "yf-ye6fz0"] "2.1" []

def tooltipC7 : Tag := Tag.mk "div" [] ["tooltip", "al-top", "yf-15g2hux"] "" [peerC7]

def secC7 : Tag := Tag.mk "section" [("data-testid", "esg-controversy")] [] "" [valDivC7, tooltipC7]

def docC7 : Tag := Tag.mk "html" [] [] "" [secC7]

def netC7 : String → Except ScrapeError HttpResponse := fun _ => .ok ⟨200, docC7⟩

def spanC7bad : Tag := Tag.mk "span" [] [] "High" []

def valDivC7bad : Tag := Tag.mk "div" [] ["val", "yf-ye6fz0"] "" [spanC7bad, spanC7b]

def secC7a : Tag := Tag.mk "section" [("data-testid", "esg-controversy")] [] "" [valDivC7bad, tooltipC7]

def docC7a : Tag := Tag.mk "html" [] [] "" [secC7a]

def peerC7bad : Tag := Tag.mk "span" [] ["peer-score", "yf-ye6fz0"] "n/a" []

def tooltipC7bad : Tag := Tag.mk "div" [] ["tooltip", "al-top", "yf-15g2hux"] "" [peerC7bad]

def secC7b : Tag := Tag.mk "section" [("data-testid", "esg-controversy")] [] "" [valDivC7, tooltipC7bad]

def docC7b : Tag := Tag.mk "html" [] [] "" [secC7b]

def spanC9 : Tag := Tag.mk "span" [] [] "3" []

def valDivC9 : Tag := Tag.mk "div" [] ["val", "yf-ye6fz0"] "" [spanC9]

def secC9 : Tag := Tag.mk "section" [("data-testid", "esg-controversy")] [] "" [valDivC9]

def docC9 : Tag := Tag.mk "html" [] [] "" [secC9]

def resW : ScrapeResult :=
  ⟨some 20, some "Medium", some 5, some 7, some 8, [("Tobacco", "No")], some 2, some 3⟩

def scrapeW : String → Except ScrapeError (Option ScrapeResult) :=
  fun t => if t = "AAA" then .ok (some resW) else .ok none

def hdrOnlyRow : Tag :=
  Tag.mk "tr" [] [] "" [Tag.mk "th" [] [] "Products" [], Tag.mk "th" [] [] "Involvement" []]

def tableHdrOnly : Tag := Tag.mk "table" [] [] "" [hdrOnlyRow]

def tdOnly : Tag := Tag.mk "td" [] [] "Tobacco" []

def rowOneTd : Tag := Tag.mk "tr" [] [] "" [tdOnly]

def csvW : Option (List (Option String)) :=
  some [some "aapl", none, some "msft", some "AAPL"]

/-- The (product, involvement) pair a table row contributes: `some` exactly
for rows with two `td` cells (what `rowStep` records), `none` otherwise. -/
def rowPair (row : Tag) : Option (String × String) :=
  match Tag.findAll (isNamed "td") row with
  | [c0, c1] => some (pyStrip c0.text, pyStrip c1.text)
  | _ => none

/-- The (product, involvement) pairs of the data rows of a table (every
row after the header), in row order. -/
def tablePairs (table : Tag) : List (String × String) :=
  ((Tag.findAll (isNamed "tr") table).drop 1).filterMap rowPair

/-- The descriptor assigned to key `k` by the LAST pair for `k` in the
list, if any: the reference semantics for last-row-wins. -/
def lastAssign (k : String) : List (String × String) → Option String
  | [] => none
  | p :: ps =>
    match lastAssign k ps with
    | some v => some v
    | none => if p.1 = k then some p.2 else none

def trOf (a b : String) : Tag :=
  Tag.mk "tr" [] [] "" [Tag.mk "td" [] [] a [], Tag.mk "td" [] [] b []]

def tableDup : Tag :=
  Tag.mk "table" [] [] ""
    [hdrOnlyRow, trOf "Tobacco" "No", trOf "Alcohol" "Yes", trOf "Tobacco" "Major"]

/-! Theorems.  Helper lemmas first, then one theorem per claim (with its
witness or counterexample where applicable). -/

theorem parseNum_three : parseNum "3" = some (3 : Rat) := by
  have h : parseNum "3" = some (((3 : Nat) : Rat)) := rfl
  rw [h]; norm_num

theorem parseNum_two_point_one : parseNum "2.1" = some (21 / 10 : Rat) := by
  have h : parseNum "2.1" =
      some (((2 : Nat) : Rat) + ((1 : Nat) : Rat) / ((10 : Rat) ^ (1 : Nat))) := rfl
  rw [h]; norm_num

theorem length_filterMap_eq_countP {α β : Type} (f : α → Option β) (l : List α) :
    (l.filterMap f).length = l.countP (fun a => (f a).isSome) := by
  induction l with
  | nil => rfl
  | cons a l ih =>
    rcases h : f a with _ | b <;>
      simp [List.filterMap_cons, List.countP_cons, h, ih]

/-- Invariant of the `fetch_data` loop: running the loop body over the
remaining tickers extends the accumulated rows by exactly the rows of the
qualifying tickers and bumps the count by their number. -/
theorem fetch_data_go_ok (scrape : String → Except ScrapeError (Option ScrapeResult))
    (ts : List String) :
    ∀ (acc : List Row) (k : Nat) (rows : List Row) (n : Nat),
      fetch_data_go scrape ts acc k = .ok (rows, n) →
      rows = acc ++ ts.filterMap (rowOf scrape) ∧
      n = k + (ts.filterMap (rowOf scrape)).length := by
  induction ts with
  | nil =>
    intro acc k rows n h
    simp only [fetch_data_go, Except.ok.injEq, Prod.mk.injEq] at h
    simp [← h.1, ← h.2]
  | cons t ts ih =>
    intro acc k rows n h
    simp only [fetch_data_go] at h
    split at h
    · exact absurd h (fun h => Except.noConfusion h)
    · rename_i hs
      obtain ⟨h1, h2⟩ := ih acc k rows n h
      simp [List.filterMap_cons, rowOf, hs, h1, h2]
    · rename_i d hs
      split at h
      · rename_i hd
        obtain ⟨h1, h2⟩ := ih acc k rows n h
        simp [List.filterMap_cons, rowOf, hs, hd, h1, h2]
      · rename_i tot hd
        obtain ⟨h1, h2⟩ := ih (acc ++ [mkRow t d tot]) (k + 1) rows n h
        refine ⟨?_, ?_⟩
        · simp [List.filterMap_cons, rowOf, hs, hd, h1]
        · simp [List.filterMap_cons, rowOf, hs, hd]
          omega

/-- C1: the aggregate table built by `fetch_data` has exactly one row per
input ticker whose fetch result is non-null with a non-null total score
(in input order, each row built from that ticker's record), every other
fetch result is dropped entirely, and the reported valid count equals the
number of such tickers. -/
theorem fetch_data_filters_null_total
    (scrape : String → Except ScrapeError (Option ScrapeResult))
    (tickers : List String) (rows : List Row) (n : Nat)
    (h : fetch_data scrape tickers = .ok (rows, n)) :
    rows = tickers.filterMap (rowOf scrape) ∧
    n = (tickers.filterMap (rowOf scrape)).length ∧
    n = tickers.countP (fun t => (rowOf scrape t).isSome) := by
  obtain ⟨h1, h2⟩ := fetch_data_go_ok scrape tickers [] 0 rows n h
  refine ⟨by simpa using h1, by simpa using h2, ?_⟩
  rw [length_filterMap_eq_countP] at h2
  simpa using h2

/-- Witness for C1: on tickers `["AAA", "BBB"]` where only `"AAA"` has a
record with a non-null total score, the table has exactly the one row for
`"AAA"` and the valid count is 1. -/
theorem fetch_data_filters_null_total_witness :
    [mkRow "AAA" resW 20] = (["AAA", "BBB"].filterMap (rowOf scrapeW)) ∧
    (1 : Nat) = (["AAA", "BBB"].filterMap (rowOf scrapeW)).length ∧
    (1 : Nat) = ["AAA", "BBB"].countP (fun t => (rowOf scrapeW t).isSome) :=
  fetch_data_filters_null_total scrapeW ["AAA", "BBB"] [mkRow "AAA" resW 20] 1 rfl

/-- Counterexample to C2 as stated: on a document whose total-score section
has an `h4` whose text `"N/A"` does not parse as a number, `get_score` does
NOT yield a null field — it raises a `ValueError` that aborts the whole
`scrape_esg_scores` call (there is no `try`/`except` around the `float`
in `get_score`). -/
theorem get_score_unparseable_aborts_call :
    get_score docC2 "TOTAL_ESG_SCORE" = Except.error ScrapeError.valueError ∧
    scrape_esg_scores netC2 "MSFT" = Except.error ScrapeError.valueError :=
  ⟨rfl, rfl⟩

/-- C2 (amended): a missing section or a missing sub-element yields null
for that field without error — `get_score` returns `(null, null)` when the
section is absent and a null score when the `h4` is absent — but an `h4`
whose text does not parse as a number raises an error aborting the whole
call. -/
theorem get_score_null_safe_structure (soup : Tag) (testid : String) :
    (Tag.find (isSection testid) soup = none → get_score soup testid = .ok (none, none)) ∧
    (∀ sec, Tag.find (isSection testid) soup = some sec →
      Tag.find (isNamed "h4") sec = none →
      get_score soup testid =
        .ok (none, (Tag.find (isNamedClass "span" "perf yf-y3c2sq") sec).map
              (fun l => pyStrip l.text))) ∧
    (∀ sec st, Tag.find (isSection testid) soup = some sec →
      Tag.find (isNamed "h4") sec = some st →
      parseNum (pyStrip st.text) = none →
      get_score soup testid = .error .valueError) := by
  refine ⟨?_, ?_, ?_⟩
  · intro h; simp [get_score, h]
  · intro sec h1 h2; simp [get_score, h1, h2]
  · intro sec st h1 h2 h3; simp [get_score, h1, h2, h3]

/-- Witness for the amended C2: on a document with no sections at all,
`get_score` returns `(null, null)`. -/
theorem get_score_null_safe_structure_witness :
    get_score docEmpty "TOTAL_ESG_SCORE" = Except.ok (none, none) :=
  (get_score_null_safe_structure docEmpty "TOTAL_ESG_SCORE").1 rfl

/-- Counterexample to C3 as stated: when the HTTP GET itself fails (the
network stub raises), `scrape_esg_scores` does not return null — the
exception propagates (there is no `try`/`except` around `requests.get`). -/
theorem scrape_network_failure_raises :
    scrape_esg_scores netFail "MSFT" = Except.error ScrapeError.network ∧
    scrape_esg_scores netFail "MSFT" ≠ Except.ok none :=
  ⟨rfl, fun h => Except.noConfusion h⟩

/-- C3 (amended): a response with a non-200 (hence any non-success) status
makes `scrape_esg_scores` return null rather than raise; a network failure
from the GET itself propagates as an exception. -/
theorem scrape_non_success_returns_none
    (net : String → Except ScrapeError HttpResponse) (t : String) :
    (∀ resp, net t = .ok resp → resp.status_code ≠ 200 →
      scrape_esg_scores net t = .ok none) ∧
    (∀ e, net t = .error e → scrape_esg_scores net t = .error e) := by
  constructor
  · intro resp h1 h2; simp [scrape_esg_scores, h1, h2]
  · intro e h1; simp [scrape_esg_scores, h1]

/-- Witness for the amended C3: a 404 response yields the null ("no data")
result. -/
theorem scrape_non_success_returns_none_witness :
    scrape_esg_scores net404 "T" = Except.ok none :=
  (scrape_non_success_returns_none net404 "T").1 ⟨404, docEmpty⟩ rfl (by decide)

theorem dictGet_dictSet_self (d : List (String × String)) (k v : String) :
    dictGet (dictSet d k v) k = some v := by
  induction d with
  | nil => simp [dictSet, dictGet]
  | cons p ps ih =>
    by_cases h : p.1 = k
    · simp [dictSet, dictGet, h]
    · simp [dictSet, dictGet, h, ih]

theorem dictGet_dictSet_ne (d : List (String × String)) (k v k' : String) (h : k' ≠ k) :
    dictGet (dictSet d k v) k' = dictGet d k' := by
  induction d with
  | nil => simp [dictSet, dictGet, Ne.symm h]
  | cons p ps ih =>
    by_cases hp : p.1 = k
    · simp [dictSet, dictGet, hp, Ne.symm h]
    · simp [dictSet, dictGet, hp, ih]

/-- Folding dict assignments over a pair list realises last-assignment-wins
lookup on top of the initial dict. -/
theorem dictGet_foldl_dictSet (ps : List (String × String)) :
    ∀ (d : List (String × String)) (k : String),
      dictGet (ps.foldl (fun d p => dictSet d p.1 p.2) d) k =
        (lastAssign k ps).or (dictGet d k) := by
  induction ps with
  | nil => intro d k; simp [lastAssign]
  | cons p rest ih =>
    intro d k
    simp only [List.foldl_cons, lastAssign]
    rw [ih]
    rcases lastAssign k rest with _ | v
    · simp only [Option.none_or]
      by_cases h : p.1 = k
      · subst h; simp [dictGet_dictSet_self]
      · simp [h, dictGet_dictSet_ne d p.1 p.2 k (Ne.symm h)]
    · simp

/-- The involvement loop over rows equals the dict-assignment fold over the
(product, involvement) pairs of the two-cell rows. -/
theorem foldl_rowStep_eq_pairs (rows : List Tag) :
    ∀ d : List (String × String),
      rows.foldl rowStep d =
        (rows.filterMap rowPair).foldl (fun d p => dictSet d p.1 p.2) d := by
  induction rows with
  | nil => intro d; rfl
  | cons r rs ih =>
    intro d
    simp only [List.foldl_cons, List.filterMap_cons]
    rcases hr : Tag.findAll (isNamed "td") r with _ | ⟨c0, _ | ⟨c1, _ | _⟩⟩ <;>
      simp [rowStep, rowPair, hr, ih]

/-- C4: the involvement mapping is built only from the rows after the first
(header) row; looking up a product name gives the descriptor of the LAST
data row for that name (later rows overwrite earlier ones); and a table
with only a header row (at most one `tr`) yields the empty mapping, not an
error. -/
theorem involvement_lookup_last_row_wins (table : Tag) :
    (∀ k, dictGet (involvementFromTable table) k = lastAssign k (tablePairs table)) ∧
    ((Tag.findAll (isNamed "tr") table).length ≤ 1 → involvementFromTable table = []) := by
  constructor
  · intro k
    rw [involvementFromTable, foldl_rowStep_eq_pairs, dictGet_foldl_dictSet]
    simp [tablePairs, dictGet]
  · intro h
    rw [involvementFromTable, List.drop_eq_nil_of_le h]
    rfl

/-- Witness for C4: a header-only table yields the empty mapping, and on a
table assigning "Tobacco" twice the lookup returns the later row's
descriptor. -/
theorem involvement_lookup_last_row_wins_witness :
    involvementFromTable tableHdrOnly = [] ∧
    dictGet (involvementFromTable tableDup) "Tobacco" = some "Major" :=
  ⟨(involvement_lookup_last_row_wins tableHdrOnly).2 (by decide),
   ((involvement_lookup_last_row_wins tableDup).1 "Tobacco").trans (by decide)⟩

/-- C5: a data row with only one `td` cell is skipped: the loop body leaves
the mapping unchanged (and, being total, causes no error). -/
theorem one_cell_row_skipped (d : List (String × String)) (row : Tag)
    (h : (Tag.findAll (isNamed "td") row).length = 1) :
    rowStep d row = d := by
  rcases hr : Tag.findAll (isNamed "td") row with _ | ⟨c0, _ | ⟨c1, rest⟩⟩
  · simp [rowStep, hr]
  · simp [rowStep, hr]
  · rw [hr] at h; simp at h

/-- Witness for C5: a concrete row with a single `td` contributes nothing. -/
theorem one_cell_row_skipped_witness : rowStep [("A", "B")] rowOneTd = [("A", "B")] :=
  one_cell_row_skipped [("A", "B")] rowOneTd (by decide)

theorem uniqueFirst_nodup (l : List String) : (uniqueFirst l).Nodup := by
  induction l with
  | nil => simp [uniqueFirst]
  | cons x xs ih =>
    simp only [uniqueFirst, List.nodup_cons]
    refine ⟨?_, ih.filter _⟩
    intro hmem
    have := List.of_mem_filter hmem
    simp at this

theorem mem_uniqueFirst {a : String} {l : List String} (h : a ∈ uniqueFirst l) : a ∈ l := by
  induction l with
  | nil => simp [uniqueFirst] at h
  | cons x xs ih =>
    simp only [uniqueFirst, List.mem_cons] at h
    rcases h with h | h
    · simp [h]
    · exact List.mem_cons_of_mem x (ih (List.mem_of_mem_filter h))

/-- C6: whatever the input source (CSV upload or single text entry), the
ticker list handed to `fetch_data` contains no duplicates, and every
ticker in it is the uppercased form of one of the raw source values. -/
theorem tickers_uppercased_deduplicated
    (csv : Option (List (Option String))) (single : String) :
    (tickersInput csv single).Nodup ∧
    ∀ t ∈ tickersInput csv single, ∃ s ∈ sourceVals csv single, t = pyUpper s := by
  unfold tickersInput sourceVals
  by_cases h : single = ""
  · simp only [h, ne_eq, not_true_eq_false, if_false, ite_false]
    rcases csv with _ | col
    · simp
    · simp only []
      constructor
      · exact uniqueFirst_nodup _
      · intro t ht
        have := mem_uniqueFirst ht
        rw [List.mem_map] at this
        obtain ⟨s, hs, rfl⟩ := this
        exact ⟨s, hs, rfl⟩
  · simp only [h, ne_eq, not_false_eq_true, if_true, ite_true]
    refine ⟨List.nodup_singleton _, ?_⟩
    intro t ht
    rw [List.mem_singleton] at ht
    exact ⟨single, List.mem_singleton_self single, ht⟩

/-- Witness for C6: on a CSV column with a NaN, lowercase entries and a
duplicate, the ticker `"AAPL"` in the resulting list is the uppercasing of
a source value. -/
theorem tickers_uppercased_deduplicated_witness :
    ∃ s ∈ sourceVals csvW "", "AAPL" = pyUpper s :=
  (tickers_uppercased_deduplicated csvW "").2 "AAPL" (by decide)

/-- C7: on a document whose controversy section has a value element with
two spans, the first `"3"`, and a peer-score element `"2.1"`, the scrape
returns controversy score 3 and category average 21/10; and a numeric
parse failure in either element yields null for that one field while the
other is still extracted. -/
theorem controversy_concrete_example :
    scrape_esg_scores netC7 "AAPL" =
      Except.ok (some ⟨none, none, none, none, none, [], some 3, some (21 / 10 : Rat)⟩) ∧
    controversy_pair docC7a = (none, some (21 / 10 : Rat)) ∧
    controversy_pair docC7b = (some 3, none) := by
  refine ⟨?_, ?_, ?_⟩
  · exact (show scrape_esg_scores netC7 "AAPL" =
        Except.ok (some ⟨none, none, none, none, none, [], parseNum "3", parseNum "2.1"⟩)
      from rfl).trans (by rw [parseNum_three, parseNum_two_point_one])
  · exact (show controversy_pair docC7a = (none, parseNum "2.1") from rfl).trans
      (by rw [parseNum_two_point_one])
  · exact (show controversy_pair docC7b = (parseNum "3", none) from rfl).trans
      (by rw [parseNum_three])

/-- C8: calling the memoized fetch twice with the exact same ticker
sequence performs the underlying per-ticker extraction only on the first
call (the second is a cache hit performing zero extractions), and both
calls return the same result. -/
theorem cached_fetch_idempotent (compute : List String → List Row × Nat) (ts : List String) :
    (cached_call compute [] ts).1 = (cached_call compute (cached_call compute [] ts).2.1 ts).1 ∧
    (cached_call compute [] ts).2.2 = ts.length ∧
    (cached_call compute (cached_call compute [] ts).2.1 ts).2.2 = 0 := by
  simp [cached_call, cacheLookup]

/-- C9: when the controversy value element has fewer than two spans the
controversy score is null even if the first span's text would parse, and
it is read from the first span exactly when there are at least two
spans. -/
theorem controversy_requires_two_spans (soup sec vd : Tag)
    (h1 : Tag.find (isSection "esg-controversy") soup = some sec)
    (h2 : Tag.find (isNamedClass "div" "val yf-ye6fz0") sec = some vd) :
    ((Tag.findAll (isNamed "span") vd).length < 2 → (controversy_pair soup).1 = none) ∧
    (∀ s0 s1 rest, Tag.findAll (isNamed "span") vd = s0 :: s1 :: rest →
      (controversy_pair soup).1 = parseNum (pyStrip s0.text)) := by
  constructor
  · intro hlen
    rcases hs : Tag.findAll (isNamed "span") vd with _ | ⟨s0, _ | ⟨s1, rest⟩⟩
    · simp [controversy_pair, h1, h2, hs]
    · simp [controversy_pair, h1, h2, hs]
    · rw [hs] at hlen; simp at hlen; omega
  · intro s0 s1 rest hs
    simp [controversy_pair, h1, h2, hs]

/-- Witness for C9: a value element with a single span `"3"` still gives a
null controversy score. -/
theorem controversy_requires_two_spans_witness : (controversy_pair docC9).1 = none :=
  (controversy_requires_two_spans docC9 secC9 valDivC9 rfl rfl).1 (by decide)

/-- Counterexample to C10 as stated: a successful (200) response whose
environmental-score section has an unparseable `h4` makes
`scrape_esg_scores` raise instead of returning a record, so not every
successful response yields a record. -/
theorem scrape_success_parse_error_no_record :
    netC10 "AAPL" = Except.ok ⟨200, docC10⟩ ∧
    scrape_esg_scores netC10 "AAPL" = Except.error ScrapeError.valueError :=
  ⟨rfl, rfl⟩

/-- C10 (amended): whenever a call on a successful (200) response returns
at all, it returns a record with all eight fields whose involvement-areas
field is the (possibly empty) computed mapping, never null; in particular
the null overall result can only arise from the HTTP-status check. -/
theorem scrape_success_returns_full_record
    (net : String → Except ScrapeError HttpResponse) (t : String)
    (resp : HttpResponse) (x : Option ScrapeResult)
    (h1 : net t = Except.ok resp) (h2 : resp.status_code = 200)
    (h3 : scrape_esg_scores net t = Except.ok x) :
    ∃ r : ScrapeResult, x = some r ∧
      r.involvement_areas = involvement_areas_of resp.text := by
  unfold scrape_esg_scores at h3
  rw [h1] at h3
  simp only [h2, ne_eq, not_true_eq_false, if_false, ite_false] at h3
  rcases hg1 : get_score resp.text "TOTAL_ESG_SCORE" with e | p1 <;> rw [hg1] at h3
  · exact absurd h3 (fun h => Except.noConfusion h)
  rcases hg2 : get_score resp.text "ENVIRONMENTAL_SCORE" with e | p2 <;> rw [hg2] at h3
  · exact absurd h3 (fun h => Except.noConfusion h)
  rcases hg3 : get_score resp.text "SOCIAL_SCORE" with e | p3 <;> rw [hg3] at h3
  · exact absurd h3 (fun h => Except.noConfusion h)
  rcases hg4 : get_score resp.text "GOVERNANCE_SCORE" with e | p4 <;> rw [hg4] at h3
  · exact absurd h3 (fun h => Except.noConfusion h)
  refine ⟨⟨p1.1, p1.2, p2.1, p3.1, p4.1, involvement_areas_of resp.text,
    (controversy_pair resp.text).1, (controversy_pair resp.text).2⟩, ?_, rfl⟩
  simp only [Except.ok.injEq] at h3
  exact h3.symm

/-- Witness for the amended C10: a 200 response with an empty document
returns the full record with an empty involvement mapping. -/
theorem scrape_success_returns_full_record_witness :
    ∃ r : ScrapeResult,
      (some (⟨none, none, none, none, none, [], none, none⟩ : ScrapeResult) = some r) ∧
      r.involvement_areas = involvement_areas_of docEmpty :=
  scrape_success_returns_full_record netOk200 "T" ⟨200, docEmpty⟩
    (some ⟨none, none, none, none, none, [], none, none⟩) rfl rfl rfl
